import Mathlib

/-!
Shallow embedding of the rusty-orm schema mapper and SQL statement builder.

The definitions below are translated from the repository's Rust sources:
  * `src/model.rs`          — `DataType`, `Column`, `Table`
  * `src/query_builder.rs`  — `SelectQuery`, `InsertQuery`, `UpdateQuery`, `DeleteQuery`
  * `src/eager_loading.rs`  — `EagerLoader`
  * `src/migration.rs`      — `Migration`, `MigrationGenerator::generate`, `map_data_type_to_sql`
  * `rusty_orm_macros/src/lib.rs` — `parse_sql_type`, the primary-key flag parsing in
    `get_columns`

Rust `String`s are modelled by Lean `String`s (and, for the character-indexed parser
`parse_sql_type`, by `List Char`; all concrete inputs of interest are ASCII, where Rust's
byte indices coincide with character indices).  Rust `usize` is modelled by `Nat` together
with the explicit bound `USIZE_MAX = 2 ^ 64 - 1` of the 64-bit targets the crate is built
for; `str::parse::<usize>` rejects (it does not wrap) values above that bound, and the
model does the same.  Fallible Rust code returns `Except`-style results; a Rust panic
(reachable in `parse_sql_type` through slice indexing) is modelled by an explicit
`panicked` outcome.
-/

namespace RustyOrm

/-- Decimal digit characters, as produced by Rust's `format!("{}", n)` for one digit. -/
def digitChar (n : Nat) : Char :=
  match n with
  | 0 => '0' | 1 => '1' | 2 => '2' | 3 => '3' | 4 => '4'
  | 5 => '5' | 6 => '6' | 7 => '7' | 8 => '8' | _ => '9'

/-- Fuel-driven decimal rendering of a natural number, most significant digit first.
The fuel only serves structural recursion; `natDigits` always supplies enough. -/
def natDigitsCore (fuel : Nat) (n : Nat) : List Char :=
  match fuel with
  | 0 => []
  | fuel + 1 =>
    if n < 10 then [digitChar n]
    else natDigitsCore fuel (n / 10) ++ [digitChar (n % 10)]

/-- Decimal rendering of a natural number as a character list (Rust `format!("{}", n)`). -/
def natDigits (n : Nat) : List Char :=
  natDigitsCore (n + 1) n

/-- Decimal rendering of a natural number as a string (Rust `format!("{}", n)`). -/
def natRepr (n : Nat) : String :=
  String.mk (natDigits n)

/-- Enum for the SQL data types, from `src/model.rs` (`DataType`). -/
inductive DataType where
  | Integer : DataType
  | Varchar : Nat → DataType
  | Boolean : DataType
  | Float : DataType
deriving DecidableEq, Repr

/-- A column in a database table, from `src/model.rs` (`Column`). -/
structure Column where
  name : String
  data_type : DataType
  is_primary_key : Bool
deriving DecidableEq, Repr

/-- A database table, from `src/model.rs` (`Table`). -/
structure Table where
  name : String
  columns : List Column
deriving DecidableEq, Repr

/-- State of a SQL SELECT builder, from `src/query_builder.rs` (`SelectQuery<T>`).
The `PhantomData` marker carries no data and is dropped; the table obtained from
`T::table()` is an explicit field, exactly as in the struct. -/
structure SelectQuery where
  table : Table
  selected_columns : List String
  where_clause : Option String
  joins : List String
  order_by : List String
  limit : Option Nat
  offset : Option Nat
deriving DecidableEq, Repr

namespace SelectQuery

/-- Constructor `SelectQuery::new`, parameterised by the model's table `T::table()`. -/
def new (t : Table) : SelectQuery :=
  { table := t, selected_columns := [], where_clause := none, joins := [],
    order_by := [], limit := none, offset := none }

/-- Method `SelectQuery::select`: overwrites the selected column list. -/
def select (q : SelectQuery) (columns : List String) : SelectQuery :=
  { q with selected_columns := columns }

/-- Method `SelectQuery::filter`: overwrites the WHERE clause. -/
def filter (q : SelectQuery) (condition : String) : SelectQuery :=
  { q with where_clause := some condition }

/-- Method `SelectQuery::order_by` (named `orderBy` here because the structure field of
the same name takes the source name): overwrites the ORDER BY column list. -/
def orderBy (q : SelectQuery) (columns : List String) : SelectQuery :=
  { q with order_by := columns }

/-- Method `SelectQuery::limit` (named `limitN` here because the structure field of the
same name takes the source name). -/
def limitN (q : SelectQuery) (n : Nat) : SelectQuery :=
  { q with limit := some n }

/-- Method `SelectQuery::offset` (named `offsetN` here because the structure field of the
same name takes the source name). -/
def offsetN (q : SelectQuery) (n : Nat) : SelectQuery :=
  { q with offset := some n }

/-- Method `SelectQuery::build`, mirroring the sequence of `push_str` calls in
`src/query_builder.rs` lines 63–98.  Note that the function reads every field of the
builder except `joins`, exactly as the Rust body does. -/
def build (q : SelectQuery) : String :=
  let s1 :=
    if q.selected_columns.isEmpty then "SELECT *"
    else "SELECT " ++ String.intercalate ", " q.selected_columns
  let s2 := s1 ++ " FROM " ++ q.table.name
  let s3 :=
    match q.where_clause with
    | some w => s2 ++ " WHERE " ++ w
    | none => s2
  let s4 :=
    if q.order_by.isEmpty then s3
    else s3 ++ " ORDER BY " ++ String.intercalate ", " q.order_by
  let s5 :=
    match q.limit with
    | some n => s4 ++ " LIMIT " ++ natRepr n
    | none => s4
  match q.offset with
  | some n => s5 ++ " OFFSET " ++ natRepr n
  | none => s5

end SelectQuery

/-- State of a SQL INSERT builder, from `src/query_builder.rs` (`InsertQuery<T>`). -/
structure InsertQuery where
  table : Table
  values : List (String × String)
deriving DecidableEq, Repr

namespace InsertQuery

/-- Constructor `InsertQuery::new`, parameterised by the model's table. -/
def new (t : Table) : InsertQuery :=
  { table := t, values := [] }

/-- Method `InsertQuery::value`: appends one `(column, value)` pair. -/
def value (q : InsertQuery) (column v : String) : InsertQuery :=
  { q with values := q.values ++ [(column, v)] }

/-- Method `InsertQuery::build`, from `src/query_builder.rs` lines 121–131.  Every value
is wrapped in single quotes, and the format string ends with a semicolon. -/
def build (q : InsertQuery) : String :=
  let columns := q.values.map Prod.fst
  let vals := q.values.map fun p => "'" ++ p.2 ++ "'"
  "INSERT INTO " ++ q.table.name ++ " (" ++ String.intercalate ", " columns ++
    ") VALUES (" ++ String.intercalate ", " vals ++ ");"

end InsertQuery

/-- State of a SQL UPDATE builder, from `src/query_builder.rs` (`UpdateQuery<T>`). -/
structure UpdateQuery where
  table : Table
  set_clauses : List (String × String)
  where_clause : Option String
deriving DecidableEq, Repr

namespace UpdateQuery

/-- Constructor `UpdateQuery::new`, parameterised by the model's table. -/
def new (t : Table) : UpdateQuery :=
  { table := t, set_clauses := [], where_clause := none }

/-- Method `UpdateQuery::set`: appends one SET pair. -/
def set (q : UpdateQuery) (column v : String) : UpdateQuery :=
  { q with set_clauses := q.set_clauses ++ [(column, v)] }

/-- Method `UpdateQuery::filter`: overwrites the WHERE clause. -/
def filter (q : UpdateQuery) (condition : String) : UpdateQuery :=
  { q with where_clause := some condition }

/-- Method `UpdateQuery::build`, from `src/query_builder.rs` lines 166–177. -/
def build (q : UpdateQuery) : String :=
  let set_clause := q.set_clauses.map fun p => p.1 ++ " = '" ++ p.2 ++ "'"
  let s := "UPDATE " ++ q.table.name ++ " SET " ++ String.intercalate ", " set_clause
  match q.where_clause with
  | some w => s ++ " WHERE " ++ w
  | none => s

end UpdateQuery

/-- State of a SQL DELETE builder, from `src/query_builder.rs` (`DeleteQuery<T>`). -/
structure DeleteQuery where
  table : Table
  where_clause : Option String
deriving DecidableEq, Repr

namespace DeleteQuery

/-- Constructor `DeleteQuery::new`, parameterised by the model's table. -/
def new (t : Table) : DeleteQuery :=
  { table := t, where_clause := none }

/-- Method `DeleteQuery::filter`: overwrites the WHERE clause. -/
def filter (q : DeleteQuery) (condition : String) : DeleteQuery :=
  { q with where_clause := some condition }

/-- Method `DeleteQuery::build`, from `src/query_builder.rs` lines 196–204. -/
def build (q : DeleteQuery) : String :=
  let s := "DELETE FROM " ++ q.table.name
  match q.where_clause with
  | some w => s ++ " WHERE " ++ w
  | none => s

end DeleteQuery

/-- A relationship descriptor for the eager loader, from `src/eager_loading.rs`
(trait `Relationship`): the related model's table together with the foreign-key and
related-key column names. -/
structure RelationshipDesc where
  related_table : Table
  foreign_key : String
  related_key : String
deriving DecidableEq, Repr

/-- Eager-loading wrapper over a SELECT builder, from `src/eager_loading.rs`
(`EagerLoader<T>`). -/
structure EagerLoader where
  base_query : SelectQuery
deriving DecidableEq, Repr

namespace EagerLoader

/-- Constructor `EagerLoader::new`. -/
def new (q : SelectQuery) : EagerLoader :=
  { base_query := q }

/-- Method `EagerLoader::with` (named `withRel` because `with` is a Lean keyword):
formats the join condition and appends `INNER JOIN ... ON ...` to the wrapped
builder's `joins` list, from `src/eager_loading.rs` lines 26–42. -/
def withRel (l : EagerLoader) (r : RelationshipDesc) : EagerLoader :=
  let join_condition :=
    l.base_query.table.name ++ "." ++ r.foreign_key ++ " = " ++
      r.related_table.name ++ "." ++ r.related_key
  let join_clause := "INNER JOIN " ++ r.related_table.name ++ " ON " ++ join_condition
  { base_query := { l.base_query with joins := l.base_query.joins ++ [join_clause] } }

/-- Method `EagerLoader::build`: delegates to the wrapped builder's `build`. -/
def build (l : EagerLoader) : String :=
  l.base_query.build

end EagerLoader

/-- Migration record, from `src/migration.rs` (`Migration`). -/
structure Migration where
  up : String
  down : String
deriving DecidableEq, Repr

/-- Function `map_data_type_to_sql`, from `src/migration.rs` lines 63–70. -/
def map_data_type_to_sql (data_type : DataType) : String :=
  match data_type with
  | DataType.Integer => "INTEGER"
  | DataType.Varchar size => "VARCHAR(" ++ natRepr size ++ ")"
  | DataType.Boolean => "BOOLEAN"
  | DataType.Float => "FLOAT"

namespace MigrationGenerator

/-- Function `MigrationGenerator::generate`, from `src/migration.rs` lines 24–48,
parameterised by the model's table `T::table()`. -/
def generate (table : Table) : Migration :=
  let up :=
    "CREATE TABLE " ++ table.name ++ " (" ++
      String.intercalate ", "
        (table.columns.map fun col =>
          col.name ++ " " ++ map_data_type_to_sql col.data_type ++
            (if col.is_primary_key then " PRIMARY KEY" else "")) ++
      ");"
  let down := "DROP TABLE IF EXISTS " ++ table.name ++ ";"
  { up := up, down := down }

end MigrationGenerator

/-! ### The declared-type grammar of `rusty_orm_macros/src/lib.rs` -/

/-- Error values of `parse_sql_type` (the `syn::Error` messages it constructs) together
with the unsupported-type error, which carries the offending input text. -/
inductive TypeError where
  | expectedOpen : TypeError
  | expectedClose : TypeError
  | sizeParse : TypeError
  | unsupported : String → TypeError
deriving DecidableEq, Repr

/-- Outcome of running a fallible piece of Rust code: a value, a returned error, or a
panic (which in Rust aborts instead of returning). -/
inductive RResult (α : Type) where
  | ok : α → RResult α
  | error : TypeError → RResult α
  | panicked : RResult α
deriving DecidableEq, Repr

/-- Whether an `RResult` is a success. -/
def RResult.isOk {α : Type} : RResult α → Bool
  | RResult.ok _ => true
  | _ => false

/-- Model of Rust `str::starts_with` on character lists. -/
def listStartsWith : List Char → List Char → Bool
  | [], _ => true
  | _ :: _, [] => false
  | p :: ps, c :: cs => p = c && listStartsWith ps cs

/-- Model of Rust `str::find(char)` on character lists: the index of the first
occurrence of `t`. -/
def charFind : List Char → Char → Option Nat
  | [], _ => none
  | c :: cs, t => if c = t then some 0 else (charFind cs t).map (· + 1)

/-- Largest value of `usize` on the 64-bit targets the crate is built for. -/
def USIZE_MAX : Nat := 2 ^ 64 - 1

/-- Numeric value of a decimal digit character. -/
def digitVal (c : Char) : Nat := c.toNat - '0'.toNat

/-- Value of a list of decimal digit characters, most significant first. -/
def valOfDigits (cs : List Char) : Nat :=
  cs.foldl (fun a c => 10 * a + digitVal c) 0

/-- Model of Rust `str::parse::<usize>`: an optional leading `+`, then a non-empty run
of decimal digits whose value fits in `usize`; anything else is an error (`none`).
Values above `USIZE_MAX` are rejected (`PosOverflow`), not wrapped. -/
def parseUsize? (cs : List Char) : Option Nat :=
  let body := if cs.head? = some '+' then cs.tail else cs
  if body.isEmpty then none
  else if body.all Char.isDigit then
    if valOfDigits body ≤ USIZE_MAX then some (valOfDigits body) else none
  else none

/-- Function `parse_sql_type`, from `rusty_orm_macros/src/lib.rs` lines 168–199, on
character lists.  Rust slices the input with `&type_str[start + 1..end]`, which panics
when `start + 1 > end`, i.e. when the first `)` sits before the first `(`; the model
makes that panic explicit. -/
def parse_sql_type (cs : List Char) : RResult DataType :=
  if listStartsWith "Varchar".toList cs then
    match charFind cs '(' with
    | none => RResult.error TypeError.expectedOpen
    | some start =>
      match charFind cs ')' with
      | none => RResult.error TypeError.expectedClose
      | some stop =>
        if stop < start + 1 then RResult.panicked
        else
          match parseUsize? ((cs.drop (start + 1)).take (stop - (start + 1))) with
          | none => RResult.error TypeError.sizeParse
          | some size => RResult.ok (DataType.Varchar size)
  else if cs = "Integer".toList then RResult.ok DataType.Integer
  else if cs = "Boolean".toList then RResult.ok DataType.Boolean
  else if cs = "Float".toList then RResult.ok DataType.Float
  else RResult.error (TypeError.unsupported (String.mk cs))

/-- Function `parse_sql_type` on strings. -/
def parse_sql_type_str (s : String) : RResult DataType :=
  parse_sql_type s.toList

/-- Model of Rust `str::parse::<bool>`: exactly `"true"` and `"false"` parse. -/
def parseBool? (s : String) : Option Bool :=
  if s = "true" then some true
  else if s = "false" then some false
  else none

/-- The primary-key flag computation of `get_columns`
(`rusty_orm_macros/src/lib.rs` lines 132–137): an absent flag leaves the default
`false`; a present flag is parsed with `parse::<bool>().unwrap_or(false)`. -/
def pkOfFlag (flag : Option String) : Bool :=
  match flag with
  | none => false
  | some s => (parseBool? s).getD false

/-- One field of an entity as seen by `get_columns`: the field name, the default data
type computed by `map_rust_type_to_sql` from the field's Rust type, and the optional
`type = "..."` and `primary_key = "..."` attribute strings. -/
structure FieldDesc where
  name : String
  native_default : DataType
  declared_type : Option String
  primary_key_flag : Option String
deriving DecidableEq, Repr

/-- The data type chosen for a field by the loop body of `get_columns`: the explicit
parser when a `type` attribute is present (propagating its error), the default
otherwise. -/
def fieldDataType (f : FieldDesc) : RResult DataType :=
  match f.declared_type with
  | none => RResult.ok f.native_default
  | some s => parse_sql_type_str s

/-- The `Column` produced for one field by the loop body of `get_columns`, with the
errors of the declared-type parser propagated. -/
def processField (f : FieldDesc) : RResult Column :=
  match fieldDataType f with
  | RResult.ok dt => RResult.ok { name := f.name, data_type := dt, is_primary_key := pkOfFlag f.primary_key_flag }
  | RResult.error e => RResult.error e
  | RResult.panicked => RResult.panicked

/-! ### Definitions written from the specification's words, for refinement claims.
Each is compared with the corresponding definition translated from the source. -/

/-- Column clause required by claim C3: `SELECT *` when no column was selected, the
selected column names joined by a comma and space otherwise. -/
def c3ColumnsClause (cols : List String) : String :=
  if cols.isEmpty then "SELECT *" else "SELECT " ++ String.intercalate ", " cols

/-- Everything after the column clause in the render order required by claim C3:
FROM, then WHERE, ORDER BY, LIMIT and OFFSET, each emitted only when present. -/
def c3Tail (q : SelectQuery) : String :=
  " FROM " ++ q.table.name ++
    (match q.where_clause with
     | some w => " WHERE " ++ w
     | none => "") ++
    (if q.order_by.isEmpty then "" else " ORDER BY " ++ String.intercalate ", " q.order_by) ++
    (match q.limit with
     | some n => " LIMIT " ++ natRepr n
     | none => "") ++
    (match q.offset with
     | some n => " OFFSET " ++ natRepr n
     | none => "")

/-- Full SELECT rendering in the fixed clause order required by claim C3. -/
def c3SpecRender (q : SelectQuery) : String :=
  c3ColumnsClause q.selected_columns ++ c3Tail q

/-- INSERT rendering required by claim C2 as amended: `INSERT INTO <table> (<cols>)
VALUES (<quoted-values>);`, every value wrapped in single quotes unconditionally,
columns and values joined by a comma and space, and a terminating semicolon (the
amendment forced by the source). -/
def c2SpecRender (q : InsertQuery) : String :=
  "INSERT INTO " ++ q.table.name ++ " (" ++
    String.intercalate ", " (q.values.map Prod.fst) ++ ") VALUES (" ++
    String.intercalate ", " (q.values.map fun p => "'" ++ p.2 ++ "'") ++ ");"

/-- SQL type names required by claim C4: Integer, Varchar(n), Boolean and Float map to
INTEGER, VARCHAR(n), BOOLEAN and FLOAT. -/
def c4SqlType (dt : DataType) : String :=
  match dt with
  | DataType.Integer => "INTEGER"
  | DataType.Varchar n => "VARCHAR(" ++ natRepr n ++ ")"
  | DataType.Boolean => "BOOLEAN"
  | DataType.Float => "FLOAT"

/-- Column definition required by claim C4: the column name, a space, the SQL type, and
the text ` PRIMARY KEY` exactly when the primary-key flag is set. -/
def c4ColDef (col : Column) : String :=
  col.name ++ " " ++ c4SqlType col.data_type ++
    (if col.is_primary_key then " PRIMARY KEY" else "")

/-- The `up` statement required by claim C4. -/
def c4Up (t : Table) : String :=
  "CREATE TABLE " ++ t.name ++ " (" ++
    String.intercalate ", " (t.columns.map c4ColDef) ++ ");"

/-- The `down` statement required by claim C4. -/
def c4Down (t : Table) : String :=
  "DROP TABLE IF EXISTS " ++ t.name ++ ";"

/-- Declared-type string `Varchar(<decimal n>)` of claim C5, as a character list. -/
def varcharInput (n : Nat) : List Char :=
  "Varchar(".toList ++ natDigits n ++ [')']

/-- The users table of the specification's §8 examples: an Integer primary-key column
`id` and a Varchar(100) column `name`. -/
def usersTable : Table :=
  { name := "users",
    columns :=
      [ { name := "id", data_type := DataType.Integer, is_primary_key := true },
        { name := "name", data_type := DataType.Varchar 100, is_primary_key := false } ] }

/-! ### Lemmas about the decimal rendering and the character-level parsing model -/

/-- Digit characters are decimal digits with the expected numeric value. -/
theorem digitChar_spec : ∀ k, k < 10 → (digitChar k).isDigit = true ∧ digitVal (digitChar k) = k := by
  decide

/-- Appending one digit multiplies the accumulated value by ten and adds the digit. -/
theorem valOfDigits_append_one (ds : List Char) (c : Char) :
    valOfDigits (ds ++ [c]) = 10 * valOfDigits ds + digitVal c := by
  simp [valOfDigits, List.foldl_append]

/-- With sufficient fuel, the decimal rendering is non-empty, consists of decimal
digits, and evaluates back to the rendered number. -/
theorem natDigitsCore_spec (fuel : Nat) : ∀ n, n < fuel →
    natDigitsCore fuel n ≠ [] ∧ (natDigitsCore fuel n).all Char.isDigit = true ∧
      valOfDigits (natDigitsCore fuel n) = n := by
  induction fuel with
  | zero => intro n h; omega
  | succ fuel ih =>
    intro n h
    by_cases h10 : n < 10
    · simp only [natDigitsCore, if_pos h10]
      refine ⟨by simp, ?_, ?_⟩
      · simp [List.all_cons, (digitChar_spec n h10).1]
      · simp [valOfDigits, (digitChar_spec n h10).2]
    · have hdiv : n / 10 < fuel := by
        have h1 : n / 10 < n := Nat.div_lt_self (by omega) (by omega)
        omega
      obtain ⟨hne, hall, hval⟩ := ih (n / 10) hdiv
      have hmod : n % 10 < 10 := Nat.mod_lt _ (by omega)
      simp only [natDigitsCore, if_neg h10]
      refine ⟨by simp, ?_, ?_⟩
      · simp [List.all_append, hall, List.all_cons, (digitChar_spec _ hmod).1]
      · rw [valOfDigits_append_one, hval, (digitChar_spec _ hmod).2]
        omega

/-- The decimal rendering of a natural number is never empty. -/
theorem natDigits_ne_nil (n : Nat) : natDigits n ≠ [] :=
  (natDigitsCore_spec (n + 1) n (Nat.lt_succ_self n)).1

/-- The decimal rendering of a natural number consists of decimal digits. -/
theorem natDigits_all_digit (n : Nat) : (natDigits n).all Char.isDigit = true :=
  (natDigitsCore_spec (n + 1) n (Nat.lt_succ_self n)).2.1

/-- The decimal rendering of a natural number evaluates back to that number. -/
theorem valOfDigits_natDigits (n : Nat) : valOfDigits (natDigits n) = n :=
  (natDigitsCore_spec (n + 1) n (Nat.lt_succ_self n)).2.2

/-- The `usize` parser accepts the decimal rendering of any number that fits. -/
theorem parseUsize?_natDigits (n : Nat) (h : n ≤ USIZE_MAX) :
    parseUsize? (natDigits n) = some n := by
  obtain ⟨c, cs, hcons⟩ : ∃ c cs, natDigits n = c :: cs := by
    cases hd : natDigits n with
    | nil => exact absurd hd (natDigits_ne_nil n)
    | cons c cs => exact ⟨c, cs, rfl⟩
  have hall := natDigits_all_digit n
  have hval := valOfDigits_natDigits n
  rw [hcons] at hall hval
  have hcdig : c.isDigit = true := by
    simp [List.all_cons] at hall
    exact hall.1
  have hcne : c ≠ '+' := by
    intro hc; rw [hc] at hcdig; simp [Char.isDigit] at hcdig
  unfold parseUsize?
  rw [hcons]
  simp [hcne, hall, hval, h]

/-- A list starts with any of its own prefixes. -/
theorem listStartsWith_append (p rest : List Char) : listStartsWith p (p ++ rest) = true := by
  induction p with
  | nil => rfl
  | cons c cs ih => simp [listStartsWith, ih]

/-- Finding a character past an occurrence-free block shifts the index by the block
length. -/
theorem charFind_append_of_not_mem (xs ys : List Char) (t : Char) (h : t ∉ xs) :
    charFind (xs ++ ys) t = (charFind ys t).map (· + xs.length) := by
  induction xs with
  | nil =>
    cases hys : charFind ys t
    all_goals simp [hys, charFind]
  | cons x xs ih =>
    have hx : x ≠ t := by rintro rfl; exact h (List.mem_cons_self _ _)
    have hxs : t ∉ xs := fun hm => h (List.mem_cons_of_mem _ hm)
    rw [List.cons_append]
    simp only [charFind, if_neg hx, ih hxs]
    cases charFind ys t
    · simp
    · simp
      omega

/-- The index returned by `charFind` really carries the sought character. -/
theorem charFind_getElem (cs : List Char) (t : Char) (i : Nat) (h : charFind cs t = some i) :
    cs.get? i = some t := by
  induction cs generalizing i with
  | nil => simp [charFind] at h
  | cons c cs ih =>
    by_cases hc : c = t
    · simp [charFind, hc] at h
      subst h hc
      rfl
    · simp only [charFind, if_neg hc, Option.map_eq_some'] at h
      obtain ⟨j, hj, rfl⟩ := h
      simpa using ih j hj

/-- A non-digit character does not occur in an all-digit list. -/
theorem not_mem_of_all_digit (cs : List Char) (t : Char) (hall : cs.all Char.isDigit = true)
    (ht : t.isDigit = false) : t ∉ cs := by
  intro hm
  rw [List.all_eq_true] at hall
  have := hall t hm
  rw [ht] at this
  exact absurd this (by simp)

/-- In `Varchar(<digits>)` the first opening parenthesis sits at index 7. -/
theorem charFind_varcharInput_open (n : Nat) : charFind (varcharInput n) '(' = some 7 := by
  have h : varcharInput n = "Varchar".toList ++ ('(' :: (natDigits n ++ [')'])) := by
    simp [varcharInput]
  rw [h, charFind_append_of_not_mem _ _ _ (by decide)]
  simp [charFind]

/-- In `Varchar(<digits>)` the first closing parenthesis sits right after the digits. -/
theorem charFind_varcharInput_close (n : Nat) :
    charFind (varcharInput n) ')' = some (8 + (natDigits n).length) := by
  have h : varcharInput n = ("Varchar(".toList ++ natDigits n) ++ [')'] := by
    simp [varcharInput]
  have hmem : ')' ∉ "Varchar(".toList ++ natDigits n := by
    rw [List.mem_append]
    rintro (hm | hm)
    · simp at hm
    · exact not_mem_of_all_digit _ _ (natDigits_all_digit n) (by decide) hm
  rw [h, charFind_append_of_not_mem _ _ _ hmem]
  simp [charFind]
  omega

/-- Rendering the SELECT builder agrees with the clause-ordered description. -/
theorem build_eq_c3SpecRender (q : SelectQuery) : q.build = c3SpecRender q := by
  rcases q with ⟨t, sc, wc, js, ob, lim, off⟩
  unfold SelectQuery.build c3SpecRender c3ColumnsClause c3Tail
  simp only
  cases wc <;> cases lim <;> cases off <;>
    simp [String.append_assoc, String.append_empty, String.empty_append] <;>
    cases ob <;>
    simp [String.append_assoc, String.append_empty, String.empty_append]

/-- The source's SQL type mapping agrees with the mapping required by claim C4. -/
theorem map_data_type_to_sql_eq_c4SqlType (dt : DataType) :
    map_data_type_to_sql dt = c4SqlType dt := by
  cases dt <;> rfl

/-! ### Claim theorems -/

/-- C1 (code bug in `SelectQuery::build`): the spec requires every accumulated join
clause to be interpolated after FROM and before WHERE, but `build` never reads the
`joins` field: two builders differing only in their join lists render identically, and
an eager-loaded query over `users` joined to `posts` renders plain
`SELECT * FROM users` with no join text, contradicting `EagerLoader::build`'s own
documentation ("Builds the final SQL query string with joins"). -/
theorem c1_join_clauses_dropped_by_build :
    (∀ (q : SelectQuery) (js : List String),
        SelectQuery.build { q with joins := js } = SelectQuery.build { q with joins := [] })
    ∧ ((EagerLoader.new (SelectQuery.new { name := "users", columns := [] })).withRel
         { related_table := { name := "posts", columns := [] },
           foreign_key := "id", related_key := "user_id" }).build
        = "SELECT * FROM users" :=
  ⟨fun _ _ => rfl, by decide⟩

/-- C2 counterexample: the INSERT render for the users example is not the
semicolon-free string the claim demands (the source's format string ends in `;`). -/
theorem c2_counterexample :
    (((InsertQuery.new { name := "users", columns := [] }).value "name" "Alice").value
        "email" "a@example.com").build
      ≠ "INSERT INTO users (name, email) VALUES ('Alice', 'a@example.com')" := by
  decide

/-- C2 (amended): every Insert builder renders exactly
`INSERT INTO <table> (<cols>) VALUES (<quoted-values>);` — with a trailing semicolon —
each value wrapped in single quotes unconditionally and columns and values joined by
a comma and space; on the users example the output is the claimed string followed by
`;`. -/
theorem c2_insert_renders_with_semicolon :
    (∀ q : InsertQuery, q.build = c2SpecRender q)
    ∧ (((InsertQuery.new { name := "users", columns := [] }).value "name" "Alice").value
          "email" "a@example.com").build
        = "INSERT INTO users (name, email) VALUES ('Alice', 'a@example.com');" :=
  ⟨fun _ => rfl, by decide⟩

/-- C3: every SELECT render follows the fixed clause order SELECT, FROM, WHERE,
ORDER BY, LIMIT, OFFSET, with `SELECT *` when no column was selected and the selected
columns joined by a comma and space otherwise; the fresh users builder renders
`SELECT * FROM users`, and the chained example renders
`SELECT id, name FROM users WHERE is_active = true ORDER BY name LIMIT 10`. -/
theorem c3_select_render_order :
    (∀ q : SelectQuery, q.build = c3SpecRender q)
    ∧ (SelectQuery.new { name := "users", columns := [] }).build = "SELECT * FROM users"
    ∧ (((((SelectQuery.new { name := "users", columns := [] }).select ["id", "name"]).filter
          "is_active = true").orderBy ["name"]).limitN 10).build
        = "SELECT id, name FROM users WHERE is_active = true ORDER BY name LIMIT 10" :=
  ⟨build_eq_c3SpecRender, by decide, by decide⟩

/-- C4: for every table, the generated migration's `up` is
`CREATE TABLE <name> (<col-defs>);` with each column rendered as
`<name> <SQL-TYPE>[ PRIMARY KEY]`, joined by a comma and space in column order under
the Integer/Varchar/Boolean/Float to INTEGER/VARCHAR(n)/BOOLEAN/FLOAT mapping, and its
`down` is `DROP TABLE IF EXISTS <name>;`; the users example renders as the spec
states. -/
theorem c4_migration_generate :
    (∀ t : Table, MigrationGenerator.generate t = { up := c4Up t, down := c4Down t })
    ∧ (MigrationGenerator.generate usersTable).up
        = "CREATE TABLE users (id INTEGER PRIMARY KEY, name VARCHAR(100));"
    ∧ (MigrationGenerator.generate usersTable).down = "DROP TABLE IF EXISTS users;" := by
  refine ⟨?_, by decide, by decide⟩
  intro t
  have hcol : ∀ col : Column,
      col.name ++ " " ++ map_data_type_to_sql col.data_type ++
          (if col.is_primary_key then " PRIMARY KEY" else "") = c4ColDef col := by
    intro col
    unfold c4ColDef
    rw [map_data_type_to_sql_eq_c4SqlType]
  simp [MigrationGenerator.generate, c4Up, c4Down, hcol]

/-- C5 counterexample: the claim quantifies over every non-negative integer, but at
`n = 2 ^ 64` the rendered size exceeds `usize::MAX`, `str::parse::<usize>` reports an
overflow error, and the parse fails instead of yielding `Varchar n`. -/
theorem c5_counterexample :
    varcharInput (2 ^ 64) = "Varchar(18446744073709551616)".toList
    ∧ parse_sql_type (varcharInput (2 ^ 64)) = RResult.error TypeError.sizeParse := by
  decide

/-- C5 (amended): for every `n` representable in `usize` (that is `n ≤ 2 ^ 64 - 1` on
the 64-bit targets the crate is built for), parsing `Varchar(<decimal n>)` succeeds
and round-trips the size to exactly `Varchar n`. -/
theorem c5_varchar_roundtrip (n : Nat) (h : n ≤ USIZE_MAX) :
    parse_sql_type (varcharInput n) = RResult.ok (DataType.Varchar n) := by
  have hpre : listStartsWith "Varchar".toList (varcharInput n) = true := by
    have hv : varcharInput n = "Varchar".toList ++ ('(' :: (natDigits n ++ [')'])) := by
      simp [varcharInput]
    rw [hv, listStartsWith_append]
  unfold parse_sql_type
  rw [if_pos hpre]
  simp only [charFind_varcharInput_open, charFind_varcharInput_close]
  rw [if_neg (by omega)]
  have hdrop : List.drop (7 + 1) (varcharInput n) = natDigits n ++ [')'] := by
    have hv : varcharInput n = "Varchar(".toList ++ (natDigits n ++ [')']) := by
      simp [varcharInput]
    rw [hv, show (7 : Nat) + 1 = ("Varchar(".toList).length from by decide, List.drop_left]
  have htake : List.take ((natDigits n).length) (natDigits n ++ [')']) = natDigits n :=
    List.take_left (natDigits n) [')']
  have harith : 8 + (natDigits n).length - (7 + 1) = (natDigits n).length := by omega
  rw [harith, hdrop, htake, parseUsize?_natDigits n h]

/-- Witness for C5: the round-trip theorem applied at the concrete size 100. -/
theorem c5_varchar_roundtrip_witness :
    100 ≤ USIZE_MAX ∧ parse_sql_type (varcharInput 100) = RResult.ok (DataType.Varchar 100) :=
  ⟨by decide, c5_varchar_roundtrip 100 (by decide)⟩

/-- C6: the malformed inputs `Varchar(abc)`, `Varchar(10` and `Varchar10)` each yield a
grammar error, and every input that does not start with `Varchar` and is not exactly
`Integer`, `Boolean` or `Float` fails with an unsupported-type error carrying that
input. -/
theorem c6_declared_type_errors :
    parse_sql_type_str "Varchar(abc)" = RResult.error TypeError.sizeParse
    ∧ parse_sql_type_str "Varchar(10" = RResult.error TypeError.expectedClose
    ∧ parse_sql_type_str "Varchar10)" = RResult.error TypeError.expectedOpen
    ∧ ∀ cs : List Char, listStartsWith "Varchar".toList cs = false →
        cs ≠ "Integer".toList → cs ≠ "Boolean".toList → cs ≠ "Float".toList →
          parse_sql_type cs = RResult.error (TypeError.unsupported (String.mk cs)) := by
  refine ⟨by decide, by decide, by decide, ?_⟩
  intro cs h1 h2 h3 h4
  unfold parse_sql_type
  rw [if_neg (by rw [h1]; simp), if_neg h2, if_neg h3, if_neg h4]

/-- Witness for C6: the unsupported-type branch applied at the concrete input
`Hello`. -/
theorem c6_declared_type_errors_witness :
    listStartsWith "Varchar".toList "Hello".toList = false
    ∧ parse_sql_type "Hello".toList = RResult.error (TypeError.unsupported "Hello") :=
  ⟨by decide,
    c6_declared_type_errors.2.2.2 "Hello".toList (by decide) (by decide) (by decide) (by decide)⟩

/-- C7: on each of the Select, Update and Delete builders, a second `filter` call
replaces the first: filtering by `c₁` and then by `c₂` renders the same SQL as
filtering by `c₂` alone, with no AND-combination. -/
theorem c7_filter_replaces :
    (∀ (q : SelectQuery) (c₁ c₂ : String), ((q.filter c₁).filter c₂).build = (q.filter c₂).build)
    ∧ (∀ (q : UpdateQuery) (c₁ c₂ : String), ((q.filter c₁).filter c₂).build = (q.filter c₂).build)
    ∧ (∀ (q : DeleteQuery) (c₁ c₂ : String), ((q.filter c₁).filter c₂).build = (q.filter c₂).build) :=
  ⟨fun _ _ _ => rfl, fun _ _ _ => rfl, fun _ _ _ => rfl⟩

/-- C8: a primary-key flag that is present but not exactly `true` or `false` is
leniently defaulted: it never makes field processing fail (success depends only on the
declared type) and the produced column's primary-key bit is `false`; an absent flag
likewise yields `false`. -/
theorem c8_lenient_primary_key_flag :
    (∀ s : String, s ≠ "true" → s ≠ "false" → pkOfFlag (some s) = false)
    ∧ pkOfFlag none = false
    ∧ (∀ (f : FieldDesc) (flag : Option String),
        (processField { f with primary_key_flag := flag }).isOk = (processField f).isOk)
    ∧ (∀ (f : FieldDesc) (s : String) (c : Column), f.primary_key_flag = some s →
        s ≠ "true" → s ≠ "false" → processField f = RResult.ok c → c.is_primary_key = false) := by
  have hpk : ∀ s : String, s ≠ "true" → s ≠ "false" → pkOfFlag (some s) = false := by
    intro s h1 h2
    have hred : pkOfFlag (some s) = (parseBool? s).getD false := rfl
    rw [hred]
    unfold parseBool?
    rw [if_neg h1, if_neg h2]
    rfl
  refine ⟨hpk, rfl, ?_, ?_⟩
  · intro f flag
    unfold processField
    have hdt : fieldDataType { f with primary_key_flag := flag } = fieldDataType f := rfl
    rw [hdt]
    cases fieldDataType f <;> rfl
  · intro f s c hflag h1 h2 hok
    have hpkf : pkOfFlag f.primary_key_flag = false := by
      rw [hflag]
      exact hpk s h1 h2
    unfold processField at hok
    cases hdt : fieldDataType f <;> rw [hdt] at hok
    · injection hok with hc
      rw [← hc]
      exact hpkf
    · exact RResult.noConfusion hok
    · exact RResult.noConfusion hok

/-- Witness for C8: the lenient default applied to the unparseable flag `yes` on an
integer `id` field. -/
theorem c8_lenient_primary_key_flag_witness :
    ({ name := "id", native_default := DataType.Integer, declared_type := none,
        primary_key_flag := some "yes" } : FieldDesc).primary_key_flag = some "yes"
    ∧ pkOfFlag (some "yes") = false
    ∧ ({ name := "id", data_type := DataType.Integer, is_primary_key := false } : Column).is_primary_key = false :=
  ⟨rfl, c8_lenient_primary_key_flag.1 "yes" (by decide) (by decide),
    c8_lenient_primary_key_flag.2.2.2
      { name := "id", native_default := DataType.Integer, declared_type := none,
        primary_key_flag := some "yes" }
      "yes"
      { name := "id", data_type := DataType.Integer, is_primary_key := false }
      rfl (by decide) (by decide) (by decide)⟩

/-- C9 counterexample: on the input `Varchar)0(`, where the first `)` precedes the
first `(`, the declared-type parser panics (Rust's `&type_str[start + 1..end]` slice
bound check aborts) instead of returning a value or an error. -/
theorem c9_counterexample : parse_sql_type_str "Varchar)0(" = RResult.panicked := by
  decide

/-- C9 (amended): the declared-type parser returns a DataType or a structured error on
every input except exactly those starting with `Varchar` in which both parentheses
occur and the first `)` sits strictly before the first `(`; on those inputs the size
slice `[start + 1..end]` has its start past its end and the code panics. -/
theorem c9_panic_characterization (cs : List Char) :
    parse_sql_type cs = RResult.panicked ↔
      (listStartsWith "Varchar".toList cs = true ∧
        ∃ i j, charFind cs '(' = some i ∧ charFind cs ')' = some j ∧ j < i) := by
  constructor
  · intro h
    unfold parse_sql_type at h
    by_cases hpre : listStartsWith "Varchar".toList cs = true
    · rw [if_pos hpre] at h
      refine ⟨hpre, ?_⟩
      cases hopen : charFind cs '(' with
      | none => rw [hopen] at h; simp at h
      | some start =>
        cases hclose : charFind cs ')' with
        | none => rw [hopen, hclose] at h; simp at h
        | some stop =>
          rw [hopen, hclose] at h
          simp only at h
          by_cases hlt : stop < start + 1
          · refine ⟨start, stop, rfl, rfl, ?_⟩
            have hne : stop ≠ start := by
              intro heq
              have h1 := charFind_getElem cs '(' start hopen
              have h2 := charFind_getElem cs ')' stop hclose
              rw [heq, h1] at h2
              simp at h2
            omega
          · rw [if_neg hlt] at h
            cases hp : parseUsize? ((cs.drop (start + 1)).take (stop - (start + 1))) with
            | none => rw [hp] at h; simp at h
            | some size => rw [hp] at h; simp at h
    · rw [if_neg hpre] at h
      by_cases h1 : cs = "Integer".toList
      · rw [if_pos h1] at h; simp at h
      · rw [if_neg h1] at h
        by_cases h2 : cs = "Boolean".toList
        · rw [if_pos h2] at h; simp at h
        · rw [if_neg h2] at h
          by_cases h3 : cs = "Float".toList
          · rw [if_pos h3] at h; simp at h
          · rw [if_neg h3] at h; simp at h
  · rintro ⟨hpre, i, j, hopen, hclose, hji⟩
    unfold parse_sql_type
    rw [if_pos hpre, hopen, hclose]
    simp only
    rw [if_pos (by omega)]

/-- C10: selecting an empty column list is the same as never selecting: the builder
state coincides with one whose selected-column list is empty, and the render starts
with `SELECT *` followed by the usual tail. -/
theorem c10_select_empty_is_select_star (q : SelectQuery) :
    (q.select []).build = SelectQuery.build { q with selected_columns := [] }
    ∧ (q.select []).build = "SELECT *" ++ c3Tail q := by
  constructor
  · rfl
  · rw [build_eq_c3SpecRender]
    rfl

end RustyOrm
